import Mathlib

/-!
Shallow embedding of the scoring and explanation pipeline of the
return-fraud detection service (`src/api/app.py`).

Python floats are modelled as exact rationals (`ℚ`); Python dictionaries
as association lists; the FastAPI `HTTPException` as an explicit error
value (`HTTPErr`) returned through `Except`; an arbitrary Python
exception raised inside a `try:` block as a `PyErr`.  The loaded model's
`predict` method is an opaque function `List FieldValue → Except String ℚ`
(it may raise, carrying a message), matching the spec's treatment of the
scorer as an external, opaque artifact.  Wall-clock timestamps
(`datetime.now().isoformat()`) are threaded through as an explicit
parameter `now`.
-/

namespace ReturnFraud

/-- A value stored in the Python dict produced by `request.dict()`:
the two identifiers are strings, all other fields are numbers. -/
inductive FieldValue
  | str (s : String)
  | num (q : ℚ)
  deriving DecidableEq, Repr

/-- The `ReturnRequest` pydantic model: two opaque identifiers and the
22 numeric/flag feature fields (`src/api/app.py` lines 82-114).  The
pydantic range constraints live at the boundary layer and are not needed
by the claims below. -/
structure ReturnRequest where
  user_id : String
  order_id : String
  user_age_days : ℚ
  num_orders : ℚ
  avg_order_value : ℚ
  device_count : ℚ
  return_rate : ℚ
  recent_returns_30d : ℚ
  recent_returns_90d : ℚ
  recent_returns_365d : ℚ
  order_value : ℚ
  item_count : ℚ
  product_risk_score : ℚ
  shipping_method_express : ℚ
  billing_shipping_mismatch : ℚ
  days_to_return : ℚ
  return_reason_suspicious : ℚ
  refund_type_cash : ℚ
  refund_type_store_credit : ℚ
  is_high_value : ℚ
  email_domain_risk : ℚ
  hour_of_day : ℚ
  is_weekend : ℚ

/-- `request.dict()`: the pydantic model as an association list, keys in
field-declaration order (Python dicts preserve insertion order). -/
def request_dict (r : ReturnRequest) : List (String × FieldValue) :=
  [ ("user_id", .str r.user_id)
  , ("order_id", .str r.order_id)
  , ("user_age_days", .num r.user_age_days)
  , ("num_orders", .num r.num_orders)
  , ("avg_order_value", .num r.avg_order_value)
  , ("device_count", .num r.device_count)
  , ("return_rate", .num r.return_rate)
  , ("recent_returns_30d", .num r.recent_returns_30d)
  , ("recent_returns_90d", .num r.recent_returns_90d)
  , ("recent_returns_365d", .num r.recent_returns_365d)
  , ("order_value", .num r.order_value)
  , ("item_count", .num r.item_count)
  , ("product_risk_score", .num r.product_risk_score)
  , ("shipping_method_express", .num r.shipping_method_express)
  , ("billing_shipping_mismatch", .num r.billing_shipping_mismatch)
  , ("days_to_return", .num r.days_to_return)
  , ("return_reason_suspicious", .num r.return_reason_suspicious)
  , ("refund_type_cash", .num r.refund_type_cash)
  , ("refund_type_store_credit", .num r.refund_type_store_credit)
  , ("is_high_value", .num r.is_high_value)
  , ("email_domain_risk", .num r.email_domain_risk)
  , ("hour_of_day", .num r.hour_of_day)
  , ("is_weekend", .num r.is_weekend) ]

/-- The structured error of a FastAPI `HTTPException(status_code, detail)`. -/
structure HTTPErr where
  status_code : ℕ
  detail : String
  deriving DecidableEq, Repr

/-- An exception escaping inside a Python `try:` block: either a raised
`HTTPException` or some other exception carrying a message. -/
inductive PyErr
  | http (e : HTTPErr)
  | exc (msg : String)
  deriving DecidableEq, Repr

/-- Python `str(e)` for the exceptions we model (starlette's
`HTTPException.__str__` renders as `"{status_code}: {detail}"`). -/
def pyErrStr : PyErr → String
  | .http e => toString e.status_code ++ ": " ++ e.detail
  | .exc m => m

/-- `training_date` / `random_state` entries of the metadata JSON
document (accessed with `.get(key, 'unknown')`). -/
structure ModelMetadata where
  training_date : Option String
  random_state : Option String

/-- The module-level globals of `app.py` (lines 23-27): the loaded model
(its `predict` method, opaque and possibly raising), and the metadata
triple, each `None` until loaded. -/
structure ServerState where
  model : Option (List FieldValue → Except String ℚ)
  feature_names : Option (List String)
  feature_importance : Option (List ℚ)
  model_metadata : Option ModelMetadata

/-- `validate_features` (lines 166-183): raise a 500 `HTTPException` if
`feature_names` is `None`; otherwise build the feature list by looking
each feature name up in `request.dict()`, substituting `0.0` when the
name is absent.  (`np.array(...).reshape(1, -1)` only adds shape
bookkeeping; the flat list is what every consumer reads back out.) -/
def validate_features (st : ServerState) (req : ReturnRequest) :
    Except PyErr (List FieldValue) :=
  match st.feature_names with
  | none => .error (.http ⟨500, "Model not loaded"⟩)
  | some ns =>
      .ok (ns.map fun n =>
        match (request_dict req).lookup n with
        | some v => v
        | none => FieldValue.num 0)

/-- `np.percentile(a, 75)` with numpy's default linear interpolation,
exact over `ℚ`: sort ascending, take `h = 0.75·(n−1)`, and linearly
interpolate between the entries at `⌊h⌋` and `⌊h⌋+1`.  (Sorting a list
of rationals has a unique result, so any sorting algorithm models
`np.sort`; `insertionSort` is used because it is structurally recursive
and therefore computes definitionally.) -/
def np_percentile_75 (l : List ℚ) : ℚ :=
  let s := l.insertionSort (· ≤ ·)
  let n := s.length
  if n = 0 then 0
  else
    let k : ℕ := 3 * (n - 1) / 4
    let g : ℚ := 3 * ((n : ℚ) - 1) / 4 - (k : ℚ)
    s.getD k 0 + g * (s.getD (min (k + 1) (n - 1)) 0 - s.getD k 0)

/-- Python `float(value)` applied to a dict value: numbers convert,
opaque identifier strings raise a `ValueError`. -/
def pyFloat : FieldValue → Except String ℚ
  | .num q => .ok q
  | .str s => .error ("could not convert string to float: " ++ s)

/-- One entry of `top_risk_factors` (the dict built at lines 156-161). -/
structure RiskFactor where
  feature : String
  value : ℚ
  importance : ℚ
  risk_level : String
  deriving DecidableEq, Repr

/-- `list(zip(feature_names, features, feature_importance))` (line 148):
Python `zip` silently truncates to the shortest argument. -/
def feature_data (features : List FieldValue) (names : List String)
    (imps : List ℚ) : List (String × FieldValue × ℚ) :=
  names.zip (features.zip imps)

/-- The sort order of `feature_data.sort(key=lambda x: x[2], reverse=True)`
(line 151): `a` may precede `b` exactly when `a`'s importance is at
least `b`'s. -/
def impDesc (a b : String × FieldValue × ℚ) : Prop := b.2.2 ≤ a.2.2

instance : DecidableRel impDesc :=
  fun a b => inferInstanceAs (Decidable (b.2.2 ≤ a.2.2))

instance : IsTotal (String × FieldValue × ℚ) impDesc :=
  ⟨fun a b => le_total b.2.2 a.2.2⟩

instance : IsTrans (String × FieldValue × ℚ) impDesc :=
  ⟨fun _ _ _ h1 h2 => le_trans h2 h1⟩

/-- `feature_data.sort(key=lambda x: x[2], reverse=True)` (line 151):
Python's `list.sort` is a stable sort, and with `reverse=True` equal
keys still keep their original relative order.  A stable sort for a
total preorder is unique, so the structurally recursive
`List.insertionSort` (which is stable: it inserts later elements after
equal earlier ones) models it exactly. -/
def sort_feature_data (fd : List (String × FieldValue × ℚ)) :
    List (String × FieldValue × ℚ) :=
  fd.insertionSort impDesc

/-- The `for name, value, importance in top_features` loop
(lines 154-161): each iteration converts the value with `float(...)`
(which can raise) and classifies the risk level against the 75th
percentile of the whole importance distribution. -/
def risk_factor_loop (fi : List ℚ) :
    List (String × FieldValue × ℚ) → Except String (List RiskFactor)
  | [] => .ok []
  | t :: ts => do
      let v ← pyFloat t.2.1
      let rest ← risk_factor_loop fi ts
      .ok ({ feature := t.1, value := v, importance := t.2.2,
             risk_level :=
               if np_percentile_75 fi < t.2.2 then "high" else "medium" } :: rest)

/-- `get_top_risk_factors` (lines 141-163).  `feature_importance is None`
returns `[]`; a `None` `feature_names` would make `zip` raise a
`TypeError` (that path is unreachable from the endpoints, which only get
here after `validate_features` succeeded). -/
def get_top_risk_factors (features : List FieldValue)
    (names : Option (List String)) (imps : Option (List ℚ)) (top_n : ℕ) :
    Except String (List RiskFactor) :=
  match imps with
  | none => .ok []
  | some fi =>
      match names with
      | none => .error "zip argument #1 must support iteration"
      | some ns =>
          let top := (sort_feature_data (feature_data features ns fi)).take top_n
          risk_factor_loop fi top

/-- The `FraudScoreResponse` pydantic model (lines 117-124). -/
structure FraudScoreResponse where
  risk_score : ℚ
  is_flagged : Bool
  confidence : ℚ
  top_risk_factors : List RiskFactor
  timestamp : String
  model_version : String

/-- `POST /score` (`score_return_request`, lines 208-244): a 500
"Model not loaded" outside the `try:`; inside it, vectorize, predict,
threshold at `0.5`, compute the boundary-distance confidence (capped at
`1.0` in the response), rank the top risk factors, and stamp the model
version; any exception becomes a 500 "Scoring error: ...". -/
def score_return_request (st : ServerState) (now : String)
    (req : ReturnRequest) : Except HTTPErr FraudScoreResponse :=
  match st.model with
  | none => .error ⟨500, "Model not loaded"⟩
  | some predict =>
      let inner : Except PyErr FraudScoreResponse := do
        let features ← validate_features st req
        let risk_score ← (predict features).mapError PyErr.exc
        let threshold : ℚ := 1/2
        let is_flagged := decide (risk_score > threshold)
        let confidence := |risk_score - threshold| * 2
        let top ← (get_top_risk_factors features st.feature_names
          st.feature_importance 5).mapError PyErr.exc
        .ok { risk_score := risk_score, is_flagged := is_flagged,
              confidence := min 1 confidence, top_risk_factors := top,
              timestamp := now,
              model_version :=
                ((st.model_metadata).bind (·.training_date)).getD "unknown" }
      match inner with
      | .ok r => .ok r
      | .error e => .error ⟨500, "Scoring error: " ++ pyErrStr e⟩

/-- One element of the `results` list of `POST /batch_score`
(lines 299-305). -/
structure BatchItem where
  user_id : String
  order_id : String
  risk_score : ℚ
  is_flagged : Bool
  timestamp : String

/-- The response dict of `POST /batch_score` (lines 307-311). -/
structure BatchResult where
  results : List BatchItem
  total_processed : ℕ
  flagged_count : ℕ

/-- The body of one iteration of the batch loop (lines 288-305):
vectorize, predict, threshold, and record the item. -/
def batch_score_item (st : ServerState)
    (predict : List FieldValue → Except String ℚ) (now : String)
    (req : ReturnRequest) : Except PyErr BatchItem := do
  let features ← validate_features st req
  let risk_score ← (predict features).mapError PyErr.exc
  let threshold : ℚ := 1/2
  .ok { user_id := req.user_id, order_id := req.order_id,
        risk_score := risk_score,
        is_flagged := decide (risk_score > threshold), timestamp := now }

/-- The `for request in requests` loop (lines 288-305): the first
exception escapes the loop, discarding every result accumulated so far. -/
def batch_loop (st : ServerState)
    (predict : List FieldValue → Except String ℚ) (now : String) :
    List ReturnRequest → Except PyErr (List BatchItem)
  | [] => .ok []
  | req :: reqs => do
      let item ← batch_score_item st predict now req
      let rest ← batch_loop st predict now reqs
      .ok (item :: rest)

/-- `POST /batch_score` (`batch_score_return_requests`, lines 279-315):
a 500 "Model not loaded" outside the `try:`; inside it, score each
request in order, then derive `total_processed = len(results)` and
`flagged_count = sum(1 for r in results if r['is_flagged'])`; any
exception becomes a 500 "Batch scoring error: ...". -/
def batch_score_return_requests (st : ServerState) (now : String)
    (reqs : List ReturnRequest) : Except HTTPErr BatchResult :=
  match st.model with
  | none => .error ⟨500, "Model not loaded"⟩
  | some predict =>
      match batch_loop st predict now reqs with
      | .ok results =>
          .ok { results := results, total_processed := results.length,
                flagged_count := results.countP (·.is_flagged) }
      | .error e => .error ⟨500, "Batch scoring error: " ++ pyErrStr e⟩

/-- The `HealthResponse` pydantic model (lines 127-131). -/
structure HealthResponse where
  status : String
  model_loaded : Bool
  timestamp : String
  deriving DecidableEq, Repr

/-- `GET /health` (`health_check`, lines 198-205). -/
def health_check (st : ServerState) (now : String) : HealthResponse :=
  { status := if st.model.isSome then "healthy" else "unhealthy",
    model_loaded := st.model.isSome, timestamp := now }

/-- One entry of the metrics / feature-importance listings
(lines 264-268). -/
structure ImportanceEntry where
  feature : String
  importance : ℚ
  deriving DecidableEq, Repr

/-- The descending-importance order used by the metrics listing
(line 271). -/
def entryDesc (a b : ImportanceEntry) : Prop := b.importance ≤ a.importance

instance : DecidableRel entryDesc :=
  fun a b => inferInstanceAs (Decidable (b.importance ≤ a.importance))

/-- The `MetricsResponse` (lines 134-137), with the `model_info` dict
flattened into its four fixed keys (lines 254-259). -/
structure MetricsResponse where
  model_type : String
  training_date : String
  feature_count : ℕ
  random_state : String
  feature_importance : List ImportanceEntry

/-- `GET /metrics` (`get_model_metrics`, lines 247-276): a 500 if no
model; `feature_count` is `len(feature_names) if feature_names else 0`;
the importance list is built and sorted descending only when
`feature_names` is truthy (non-`None` and non-empty) and
`feature_importance is not None`, else it stays empty. -/
def get_model_metrics (st : ServerState) : Except HTTPErr MetricsResponse :=
  match st.model with
  | none => .error ⟨500, "Model not loaded"⟩
  | some _ =>
      let fid : List ImportanceEntry :=
        match st.feature_names, st.feature_importance with
        | some ns, some fi =>
            if ns.isEmpty then []
            else ((ns.zip fi).map fun p =>
              ImportanceEntry.mk p.1 p.2).insertionSort entryDesc
        | _, _ => []
      .ok { model_type := "LightGBM",
            training_date :=
              ((st.model_metadata).bind (·.training_date)).getD "unknown",
            feature_count := (st.feature_names.getD []).length,
            random_state :=
              ((st.model_metadata).bind (·.random_state)).getD "unknown",
            feature_importance := fid }

/-! ### Small `Except` reduction lemmas -/

@[simp] theorem ok_bind {ε α β : Type} (a : α) (f : α → Except ε β) :
    (Except.ok a >>= f : Except ε β) = f a := rfl

@[simp] theorem error_bind {ε α β : Type} (e : ε) (f : α → Except ε β) :
    ((Except.error e : Except ε α) >>= f : Except ε β) = Except.error e := rfl

@[simp] theorem mapError_ok {ε ε' α : Type} (g : ε → ε') (a : α) :
    (Except.ok a : Except ε α).mapError g = .ok a := rfl

@[simp] theorem mapError_error {ε ε' α : Type} (g : ε → ε') (e : ε) :
    (Except.error e : Except ε α).mapError g = .error (g e) := rfl

/-! ### Inversion of a successful single score -/

/-- Anatomy of a successful `POST /score` response: the model was
present, vectorization, prediction and explanation all succeeded, and
every response field is determined by the predicted score `q`, the
explanation, and the metadata. -/
theorem score_ok_inversion (st : ServerState) (now : String)
    (req : ReturnRequest) (r : FraudScoreResponse)
    (h : score_return_request st now req = .ok r) :
    ∃ predict features q top,
      st.model = some predict ∧
      validate_features st req = .ok features ∧
      predict features = .ok q ∧
      get_top_risk_factors features st.feature_names st.feature_importance 5
        = .ok top ∧
      r.risk_score = q ∧
      r.is_flagged = decide (q > 1/2) ∧
      r.confidence = min 1 (|q - 1/2| * 2) ∧
      r.top_risk_factors = top ∧
      r.timestamp = now ∧
      r.model_version = ((st.model_metadata).bind (·.training_date)).getD "unknown" := by
  unfold score_return_request at h
  cases hm : st.model with
  | none => rw [hm] at h; cases h
  | some predict =>
  rw [hm] at h
  simp only at h
  cases hv : validate_features st req with
  | error e => rw [hv] at h; simp at h
  | ok features =>
  rw [hv] at h
  simp only [ok_bind] at h
  cases hp : predict features with
  | error e => rw [hp] at h; simp at h
  | ok q =>
  rw [hp] at h
  simp only [mapError_ok, ok_bind] at h
  cases ht : get_top_risk_factors features st.feature_names st.feature_importance 5 with
  | error e => rw [ht] at h; simp at h
  | ok top =>
  rw [ht] at h
  simp only [mapError_ok, ok_bind] at h
  have hr : _ = r := Except.ok.inj h
  subst hr
  exact ⟨predict, features, q, top, rfl, rfl, hp, ht, rfl, rfl, rfl, rfl, rfl, rfl⟩

/-! ### Concrete fixtures used to witness the theorems below -/

/-- A well-formed, low-risk return request (all fields within the
pydantic ranges). -/
def sampleRequest : ReturnRequest :=
  { user_id := "u1", order_id := "o1", user_age_days := 365, num_orders := 10,
    avg_order_value := 50, device_count := 1, return_rate := 1/10,
    recent_returns_30d := 0, recent_returns_90d := 1, recent_returns_365d := 2,
    order_value := 50, item_count := 1, product_risk_score := 1/5,
    shipping_method_express := 0, billing_shipping_mismatch := 0,
    days_to_return := 5, return_reason_suspicious := 0, refund_type_cash := 0,
    refund_type_store_credit := 1, is_high_value := 0, email_domain_risk := 0,
    hour_of_day := 12, is_weekend := 0 }

/-- A stub scorer in the spirit of §8 of the spec: a fixed score. -/
def samplePredict : List FieldValue → Except String ℚ := fun _ => .ok (3/4)

/-- A stub scorer that always raises. -/
def failPredict : List FieldValue → Except String ℚ := fun _ => .error "boom"

/-- A fully loaded server: model, feature names, importances, metadata. -/
def sampleState : ServerState :=
  { model := some samplePredict,
    feature_names := some ["user_age_days", "order_value", "return_rate"],
    feature_importance := some [3/10, 1/2, 1/5],
    model_metadata := some ⟨some "2024-01-01", some "42"⟩ }

/-- The server before any artifact was loaded. -/
def emptyState : ServerState :=
  { model := none, feature_names := none, feature_importance := none,
    model_metadata := none }

/-- A server whose model loaded but whose metadata document was absent
(`feature_names`/`feature_importance` stayed `None`). -/
def noMetadataState : ServerState :=
  { model := some samplePredict, feature_names := none,
    feature_importance := none, model_metadata := none }

/-- A loaded server whose model raises on every call. -/
def failState : ServerState :=
  { model := some failPredict,
    feature_names := some ["user_age_days", "order_value", "return_rate"],
    feature_importance := some [3/10, 1/2, 1/5],
    model_metadata := some ⟨some "2024-01-01", some "42"⟩ }

/-- The exact response `/score` produces on the sample fixture
(checked by evaluation below; shared by several witnesses). -/
def sampleResponse : FraudScoreResponse :=
  { risk_score := 3/4, is_flagged := true, confidence := 1/2,
    top_risk_factors :=
      [ { feature := "order_value", value := 50, importance := 1/2,
          risk_level := "high" },
        { feature := "user_age_days", value := 365, importance := 3/10,
          risk_level := "medium" },
        { feature := "return_rate", value := 1/10, importance := 1/5,
          risk_level := "medium" } ],
    timestamp := "t", model_version := "2024-01-01" }

/-- Evaluating the single-score pipeline on the sample fixture. -/
theorem sampleScore_eq :
    score_return_request sampleState "t" sampleRequest = .ok sampleResponse := by
  have hm : sampleState.model = some samplePredict := rfl
  have hfn : sampleState.feature_names =
      some ["user_age_days", "order_value", "return_rate"] := rfl
  have hfi : sampleState.feature_importance = some [3/10, 1/2, 1/5] := rfl
  have hmd : sampleState.model_metadata = some ⟨some "2024-01-01", some "42"⟩ := rfl
  have hv : validate_features sampleState sampleRequest =
      .ok [.num 365, .num 50, .num (1/10)] := by
    simp [validate_features, hfn, sampleRequest, request_dict, List.lookup]
  have htop : get_top_risk_factors [.num 365, .num 50, .num (1/10)]
      (some ["user_age_days", "order_value", "return_rate"])
      (some [3/10, 1/2, 1/5]) 5 = .ok sampleResponse.top_risk_factors := by
    norm_num [get_top_risk_factors, feature_data, sort_feature_data,
      risk_factor_loop, np_percentile_75, pyFloat, impDesc, sampleResponse,
      List.insertionSort, List.orderedInsert]
  norm_num [score_return_request, hm, hv, hfn, hfi, hmd, htop, samplePredict,
    sampleResponse, min_def, abs_of_nonneg]

/-- **C1** (functional_correctness).  For every valid scoring request —
any request scored through a loaded model whose predictions respect the
scorer contract of spec §4.3, i.e. scores lie in `[0,1]` — a successful
`/score` response satisfies `0 ≤ risk_score ≤ 1`, and `is_flagged` holds
exactly when `risk_score > 0.5`, the fixed decision threshold. -/
theorem risk_score_range_and_flag (st : ServerState) (now : String)
    (req : ReturnRequest) (predict : List FieldValue → Except String ℚ)
    (r : FraudScoreResponse) (hm : st.model = some predict)
    (hrange : ∀ v q, predict v = .ok q → 0 ≤ q ∧ q ≤ 1)
    (h : score_return_request st now req = .ok r) :
    (0 ≤ r.risk_score ∧ r.risk_score ≤ 1) ∧
    (r.is_flagged = true ↔ r.risk_score > 1/2) := by
  obtain ⟨p, f, q, top, hm', hv, hp, ht, hrs, hfl, -, -, -, -⟩ :=
    score_ok_inversion st now req r h
  rw [hm] at hm'
  injection hm' with hpq
  subst hpq
  constructor
  · rw [hrs]; exact hrange f q hp
  · rw [hfl, hrs]; simp

/-- Witness for C1 at the sample fixture. -/
theorem risk_score_range_and_flag_witness :
    (0 ≤ sampleResponse.risk_score ∧ sampleResponse.risk_score ≤ 1) ∧
    (sampleResponse.is_flagged = true ↔ sampleResponse.risk_score > 1/2) :=
  risk_score_range_and_flag sampleState "t" sampleRequest samplePredict
    sampleResponse rfl
    (fun v q hq => by
      simp only [samplePredict, Except.ok.injEq] at hq
      subst hq
      norm_num)
    sampleScore_eq

/-- **C2** (functional_correctness).  Every successful scoring result
has `confidence = min 1 (|risk_score − 0.5|·2)`; in particular a score
of `0.5` gives confidence `0`, and scores `0` and `1` give
confidence `1`. -/
theorem confidence_formula (st : ServerState) (now : String)
    (req : ReturnRequest) (r : FraudScoreResponse)
    (h : score_return_request st now req = .ok r) :
    r.confidence = min 1 (|r.risk_score - 1/2| * 2) ∧
    (r.risk_score = 1/2 → r.confidence = 0) ∧
    (r.risk_score = 0 → r.confidence = 1) ∧
    (r.risk_score = 1 → r.confidence = 1) := by
  obtain ⟨p, f, q, top, -, -, -, -, hrs, -, hc, -, -, -⟩ :=
    score_ok_inversion st now req r h
  refine ⟨by rw [hc, hrs], ?_, ?_, ?_⟩ <;> intro h0 <;> rw [hrs] at h0 <;>
    rw [hc, h0] <;> norm_num [min_def, abs_of_nonneg, abs_of_nonpos]

/-- Witness for C2 at the sample fixture. -/
theorem confidence_formula_witness :
    sampleResponse.confidence = min 1 (|sampleResponse.risk_score - 1/2| * 2) ∧
    (sampleResponse.risk_score = 1/2 → sampleResponse.confidence = 0) ∧
    (sampleResponse.risk_score = 0 → sampleResponse.confidence = 1) ∧
    (sampleResponse.risk_score = 1 → sampleResponse.confidence = 1) :=
  confidence_formula sampleState "t" sampleRequest sampleResponse sampleScore_eq

/-- **C3** (functional_correctness).  Vectorization is total and
deterministic: whenever `feature_names` is loaded, `validate_features`
succeeds (never an error), the vector has length `len(feature_names)`,
its `i`-th entry is the request's value for `feature_names[i]` when that
name is present in `request.dict()` and `0.0` otherwise, and the result
depends only on the request and the `feature_names` ordering (the same
request with the same ordering always yields the identical vector). -/
theorem vectorization_total_deterministic (st : ServerState)
    (req : ReturnRequest) (ns : List String)
    (h : st.feature_names = some ns) :
    ∃ v, validate_features st req = .ok v ∧
      v.length = ns.length ∧
      (∀ (i : ℕ) name, ns[i]? = some name →
        v[i]? = some (((request_dict req).lookup name).getD (FieldValue.num 0))) ∧
      (∀ st' : ServerState, st'.feature_names = st.feature_names →
        validate_features st' req = validate_features st req) := by
  refine ⟨ns.map fun n =>
    match (request_dict req).lookup n with
    | some v => v
    | none => FieldValue.num 0, ?_, by simp, ?_, ?_⟩
  · simp [validate_features, h]
  · intro i name hi
    have hmap : (ns.map fun n =>
        match (request_dict req).lookup n with
        | some v => v
        | none => FieldValue.num 0)[i]? =
        some (match (request_dict req).lookup name with
          | some v => v
          | none => FieldValue.num 0) := by
      rw [List.getElem?_map, hi]; rfl
    rw [hmap]
    cases (request_dict req).lookup name <;> rfl
  · intro st' h'
    rw [h] at h'
    simp [validate_features, h', h]

/-- Witness for C3 at the sample fixture. -/
theorem vectorization_total_deterministic_witness :
    ∃ v, validate_features sampleState sampleRequest = .ok v ∧
      v.length = ["user_age_days", "order_value", "return_rate"].length ∧
      (∀ (i : ℕ) name, ["user_age_days", "order_value", "return_rate"][i]? = some name →
        v[i]? = some (((request_dict sampleRequest).lookup name).getD
          (FieldValue.num 0))) ∧
      (∀ st' : ServerState, st'.feature_names = sampleState.feature_names →
        validate_features st' sampleRequest =
          validate_features sampleState sampleRequest) :=
  vectorization_total_deterministic sampleState sampleRequest
    ["user_age_days", "order_value", "return_rate"] rfl

/-- **C7** (error_handling).  With no model loaded, `/health` reports
`model_loaded = false` and status `"unhealthy"` (and in general the
status is `"healthy"` iff a model is loaded), while every scoring,
batch-scoring or metrics call fails with the service's model-unavailable
error (the 500 "Model not loaded" `HTTPException`), never a success
response. -/
theorem no_model_unavailable (st : ServerState) (now : String)
    (hnone : st.model = none) :
    (health_check st now).model_loaded = false ∧
    (health_check st now).status = "unhealthy" ∧
    (∀ (st' : ServerState) (now' : String),
      ((health_check st' now').status = "healthy" ↔ st'.model.isSome = true) ∧
      (health_check st' now').model_loaded = st'.model.isSome) ∧
    (∀ req, score_return_request st now req = .error ⟨500, "Model not loaded"⟩) ∧
    get_model_metrics st = .error ⟨500, "Model not loaded"⟩ ∧
    (∀ reqs, batch_score_return_requests st now reqs =
      .error ⟨500, "Model not loaded"⟩) := by
  refine ⟨?_, ?_, ?_, ?_, ?_, ?_⟩
  · simp [health_check, hnone]
  · simp [health_check, hnone]
  · intro st' now'
    refine ⟨?_, rfl⟩
    cases h' : st'.model <;> simp [health_check, h']
  · intro req; simp [score_return_request, hnone]
  · simp [get_model_metrics, hnone]
  · intro reqs; simp [batch_score_return_requests, hnone]

/-- Witness for C7 at the unloaded server. -/
theorem no_model_unavailable_witness :
    (health_check emptyState "t").model_loaded = false ∧
    (health_check emptyState "t").status = "unhealthy" ∧
    (∀ (st' : ServerState) (now' : String),
      ((health_check st' now').status = "healthy" ↔ st'.model.isSome = true) ∧
      (health_check st' now').model_loaded = st'.model.isSome) ∧
    (∀ req, score_return_request emptyState "t" req =
      .error ⟨500, "Model not loaded"⟩) ∧
    get_model_metrics emptyState = .error ⟨500, "Model not loaded"⟩ ∧
    (∀ reqs, batch_score_return_requests emptyState "t" reqs =
      .error ⟨500, "Model not loaded"⟩) :=
  no_model_unavailable emptyState "t" rfl

/-- **C9** (error_handling).  When the model is loaded but the metadata
document was absent (`feature_names` and `feature_importance` are
`None`), `/metrics` still succeeds and degrades to an empty
feature-importance list, while every `/score` call fails with an error
(vectorization needs `feature_names`, whose absence raises the 500
"Model not loaded" exception inside the `try:`, resurfacing as a
scoring error) rather than succeeding. -/
theorem metadata_absent_degrades (st : ServerState) (now : String)
    (predict : List FieldValue → Except String ℚ)
    (hm : st.model = some predict) (hn : st.feature_names = none)
    (hi : st.feature_importance = none) :
    (∃ m, get_model_metrics st = .ok m ∧
      m.feature_importance = [] ∧ m.feature_count = 0) ∧
    (∀ req, score_return_request st now req =
      .error ⟨500, "Scoring error: 500: Model not loaded"⟩) := by
  constructor
  · have hmm : get_model_metrics st = .ok
        { model_type := "LightGBM",
          training_date := ((st.model_metadata).bind (·.training_date)).getD "unknown",
          feature_count := 0,
          random_state := ((st.model_metadata).bind (·.random_state)).getD "unknown",
          feature_importance := [] } := by
      simp [get_model_metrics, hm, hn, hi]
    exact ⟨_, hmm, rfl, rfl⟩
  · intro req
    have hstr : "Scoring error: " ++ pyErrStr (.http ⟨500, "Model not loaded"⟩) =
        "Scoring error: 500: Model not loaded" := rfl
    simp [score_return_request, hm, validate_features, hn, ← hstr]

/-- Witness for C9 at the metadata-less server. -/
theorem metadata_absent_degrades_witness :
    (∃ m, get_model_metrics noMetadataState = .ok m ∧
      m.feature_importance = [] ∧ m.feature_count = 0) ∧
    (∀ req, score_return_request noMetadataState "t" req =
      .error ⟨500, "Scoring error: 500: Model not loaded"⟩) :=
  metadata_absent_degrades noMetadataState "t" samplePredict rfl rfl rfl

/-! ### Batch pipeline helpers -/

/-- Anatomy of one successful batch item: vectorization and prediction
succeeded, and every field of the item is determined by the request, the
predicted score and the timestamp. -/
theorem batch_item_ok_inversion (st : ServerState)
    (predict : List FieldValue → Except String ℚ) (now : String)
    (req : ReturnRequest) (item : BatchItem)
    (h : batch_score_item st predict now req = .ok item) :
    ∃ features q, validate_features st req = .ok features ∧
      predict features = .ok q ∧
      item = { user_id := req.user_id, order_id := req.order_id,
               risk_score := q, is_flagged := decide (q > 1/2),
               timestamp := now } := by
  unfold batch_score_item at h
  cases hv : validate_features st req with
  | error e => rw [hv] at h; simp at h
  | ok features =>
  rw [hv] at h
  simp only [ok_bind] at h
  cases hp : predict features with
  | error e => rw [hp] at h; simp at h
  | ok q =>
  rw [hp] at h
  simp only [mapError_ok, ok_bind] at h
  exact ⟨features, q, rfl, hp, (Except.ok.inj h).symm⟩

/-- Anatomy of a successful batch loop: one result per request, in
order, each produced by `batch_score_item` on the matching request. -/
theorem batch_loop_ok_spec (st : ServerState)
    (predict : List FieldValue → Except String ℚ) (now : String) :
    ∀ (reqs : List ReturnRequest) (l : List BatchItem),
      batch_loop st predict now reqs = .ok l →
      l.length = reqs.length ∧
      ∀ (i : ℕ) req, reqs[i]? = some req →
        ∃ item, l[i]? = some item ∧
          batch_score_item st predict now req = .ok item := by
  intro reqs
  induction reqs with
  | nil =>
    intro l h
    simp only [batch_loop] at h
    obtain rfl : ([] : List BatchItem) = l := Except.ok.inj h
    refine ⟨rfl, ?_⟩
    intro i req hi
    simp at hi
  | cons r rs ih =>
    intro l h
    simp only [batch_loop] at h
    cases hitem : batch_score_item st predict now r with
    | error e => rw [hitem] at h; simp at h
    | ok item =>
    rw [hitem] at h
    simp only [ok_bind] at h
    cases hrest : batch_loop st predict now rs with
    | error e => rw [hrest] at h; simp at h
    | ok rest =>
    rw [hrest] at h
    simp only [ok_bind] at h
    obtain rfl : item :: rest = l := Except.ok.inj h
    obtain ⟨hlen, hidx⟩ := ih rest hrest
    refine ⟨by simp [hlen], ?_⟩
    intro i req hi
    cases i with
    | zero =>
      simp only [List.getElem?_cons_zero] at hi ⊢
      exact ⟨item, rfl, (Option.some.inj hi) ▸ hitem⟩
    | succ n =>
      simp only [List.getElem?_cons_succ] at hi ⊢
      exact hidx n req hi

/-- The first failing item makes the whole batch loop fail. -/
theorem batch_loop_error_of_item_error (st : ServerState)
    (predict : List FieldValue → Except String ℚ) (now : String) :
    ∀ (reqs : List ReturnRequest) req, req ∈ reqs →
      (∃ e, batch_score_item st predict now req = .error e) →
      ∃ e', batch_loop st predict now reqs = .error e' := by
  intro reqs
  induction reqs with
  | nil => intro req hmem _; simp at hmem
  | cons r rs ih =>
    intro req hmem hfail
    obtain ⟨e, he⟩ := hfail
    cases hr : batch_score_item st predict now r with
    | error e0 => exact ⟨e0, by simp [batch_loop, hr]⟩
    | ok item =>
      rcases List.mem_cons.mp hmem with rfl | hmem'
      · rw [he] at hr; cases hr
      · obtain ⟨e', he'⟩ := ih req hmem' ⟨e, he⟩
        exact ⟨e', by simp [batch_loop, hr, he']⟩

/-- **C5** (invariants).  Every successful batch-score response obeys
`total_processed = len(results)` and
`flagged_count = count(r.is_flagged for r in results)`, and results
follow the order of the input list: the `i`-th result carries the `i`-th
request's identifiers. -/
theorem batch_invariants (st : ServerState) (now : String)
    (reqs : List ReturnRequest) (r : BatchResult)
    (h : batch_score_return_requests st now reqs = .ok r) :
    r.total_processed = r.results.length ∧
    r.flagged_count = r.results.countP (·.is_flagged) ∧
    r.results.length = reqs.length ∧
    (∀ (i : ℕ) req item, reqs[i]? = some req → r.results[i]? = some item →
      item.user_id = req.user_id ∧ item.order_id = req.order_id) := by
  unfold batch_score_return_requests at h
  cases hm : st.model with
  | none => rw [hm] at h; cases h
  | some predict =>
  rw [hm] at h
  simp only at h
  cases hl : batch_loop st predict now reqs with
  | error e => rw [hl] at h; simp at h
  | ok results =>
  rw [hl] at h
  simp only at h
  have hrec := Except.ok.inj h
  subst hrec
  obtain ⟨hlen, hidx⟩ := batch_loop_ok_spec st predict now reqs results hl
  refine ⟨rfl, rfl, hlen, ?_⟩
  intro i req item hi hres
  obtain ⟨item', hres', hbsi⟩ := hidx i req hi
  have hres2 : results[i]? = some item := hres
  rw [hres'] at hres2
  obtain rfl : item' = item := Option.some.inj hres2
  obtain ⟨f, q, -, -, hitem⟩ := batch_item_ok_inversion st predict now req item' hbsi
  exact ⟨by rw [hitem], by rw [hitem]⟩

/-- The exact result `/batch_score` produces on three copies of the
sample request. -/
def sampleBatchResult : BatchResult :=
  { results :=
      [ ⟨"u1", "o1", 3/4, true, "t"⟩, ⟨"u1", "o1", 3/4, true, "t"⟩,
        ⟨"u1", "o1", 3/4, true, "t"⟩ ],
    total_processed := 3, flagged_count := 3 }

/-- Evaluating `validate_features` on the sample fixture. -/
theorem sampleValidate_eq :
    validate_features sampleState sampleRequest =
      .ok [.num 365, .num 50, .num (1/10)] := by
  simp [validate_features,
    show sampleState.feature_names =
      some ["user_age_days", "order_value", "return_rate"] from rfl,
    sampleRequest, request_dict, List.lookup]

/-- Evaluating the batch pipeline on three copies of the sample request. -/
theorem sampleBatch_eq :
    batch_score_return_requests sampleState "t"
      [sampleRequest, sampleRequest, sampleRequest] = .ok sampleBatchResult := by
  have hm : sampleState.model = some samplePredict := rfl
  have hitem : batch_score_item sampleState samplePredict "t" sampleRequest =
      .ok ⟨"u1", "o1", 3/4, true, "t"⟩ := by
    norm_num [batch_score_item, sampleValidate_eq, samplePredict,
      show sampleRequest.user_id = "u1" from rfl,
      show sampleRequest.order_id = "o1" from rfl]
  norm_num [batch_score_return_requests, hm, batch_loop, hitem,
    sampleBatchResult, List.countP_cons, List.countP_nil]

/-- Witness for C5 at the sample batch. -/
theorem batch_invariants_witness :
    sampleBatchResult.total_processed = sampleBatchResult.results.length ∧
    sampleBatchResult.flagged_count =
      sampleBatchResult.results.countP (·.is_flagged) ∧
    sampleBatchResult.results.length =
      [sampleRequest, sampleRequest, sampleRequest].length ∧
    (∀ (i : ℕ) req item,
      [sampleRequest, sampleRequest, sampleRequest][i]? = some req →
      sampleBatchResult.results[i]? = some item →
      item.user_id = req.user_id ∧ item.order_id = req.order_id) :=
  batch_invariants sampleState "t" [sampleRequest, sampleRequest, sampleRequest]
    sampleBatchResult sampleBatch_eq

/-- **C6** (refinement_equivalence).  Every entry of a successful batch
response reports exactly the `risk_score` and `is_flagged` that the
single-score operation returns for the same request against the same
loaded model and metadata; and the response has one result per request,
so a batch of 3 requests returns exactly 3 results. -/
theorem batch_matches_single (st : ServerState) (now : String)
    (reqs : List ReturnRequest) (r : BatchResult)
    (h : batch_score_return_requests st now reqs = .ok r) :
    r.results.length = reqs.length ∧
    (reqs.length = 3 → r.results.length = 3) ∧
    (∀ (i : ℕ) req item resp, reqs[i]? = some req → r.results[i]? = some item →
      score_return_request st now req = .ok resp →
      item.risk_score = resp.risk_score ∧ item.is_flagged = resp.is_flagged ∧
      item.user_id = req.user_id ∧ item.order_id = req.order_id) := by
  unfold batch_score_return_requests at h
  cases hm : st.model with
  | none => rw [hm] at h; cases h
  | some predict =>
  rw [hm] at h
  simp only at h
  cases hl : batch_loop st predict now reqs with
  | error e => rw [hl] at h; simp at h
  | ok results =>
  rw [hl] at h
  simp only at h
  have hrec := Except.ok.inj h
  subst hrec
  obtain ⟨hlen, hidx⟩ := batch_loop_ok_spec st predict now reqs results hl
  refine ⟨hlen, fun h3 => by rw [hlen, h3], ?_⟩
  intro i req item resp hi hres hscore
  obtain ⟨item', hres', hbsi⟩ := hidx i req hi
  have hres2 : results[i]? = some item := hres
  rw [hres'] at hres2
  obtain rfl : item' = item := Option.some.inj hres2
  obtain ⟨f, q, hv, hp, hitem⟩ :=
    batch_item_ok_inversion st predict now req item' hbsi
  obtain ⟨p', f', q', top, hm', hv', hp', -, hrs, hfl, -, -, -, -⟩ :=
    score_ok_inversion st now req resp hscore
  rw [hm] at hm'
  injection hm' with hpq
  subst hpq
  have hf : f = f' := by
    rw [hv] at hv'
    exact Except.ok.inj hv'
  subst hf
  have hq : q = q' := by
    rw [hp] at hp'
    exact Except.ok.inj hp'
  subst hq
  rw [hitem, hrs, hfl]
  exact ⟨rfl, rfl, rfl, rfl⟩

/-- Witness for C6 at the sample batch of three requests. -/
theorem batch_matches_single_witness :
    sampleBatchResult.results.length =
      [sampleRequest, sampleRequest, sampleRequest].length ∧
    ([sampleRequest, sampleRequest, sampleRequest].length = 3 →
      sampleBatchResult.results.length = 3) ∧
    (∀ (i : ℕ) req item resp,
      [sampleRequest, sampleRequest, sampleRequest][i]? = some req →
      sampleBatchResult.results[i]? = some item →
      score_return_request sampleState "t" req = .ok resp →
      item.risk_score = resp.risk_score ∧ item.is_flagged = resp.is_flagged ∧
      item.user_id = req.user_id ∧ item.order_id = req.order_id) :=
  batch_matches_single sampleState "t"
    [sampleRequest, sampleRequest, sampleRequest] sampleBatchResult sampleBatch_eq

/-- **C8** (error_handling).  Batch scoring is all-or-nothing: if any
single item of the batch fails to vectorize or score, the whole call
fails with one error (so no partial results are returned — the error
response carries no results at all); conversely a successful call means
every item scored, with one result per request. -/
theorem batch_all_or_nothing (st : ServerState) (now : String)
    (predict : List FieldValue → Except String ℚ) (reqs : List ReturnRequest)
    (hm : st.model = some predict) :
    ((∃ req ∈ reqs, ∃ e, batch_score_item st predict now req = .error e) →
      ∃ e', batch_score_return_requests st now reqs = .error e') ∧
    (∀ r, batch_score_return_requests st now reqs = .ok r →
      (∀ req ∈ reqs, ∃ item, batch_score_item st predict now req = .ok item) ∧
      r.results.length = reqs.length) := by
  constructor
  · intro hfail
    obtain ⟨req, hmem, e, he⟩ := hfail
    obtain ⟨e', he'⟩ :=
      batch_loop_error_of_item_error st predict now reqs req hmem ⟨e, he⟩
    exact ⟨⟨500, "Batch scoring error: " ++ pyErrStr e'⟩,
      by simp [batch_score_return_requests, hm, he']⟩
  · intro r h
    unfold batch_score_return_requests at h
    rw [hm] at h
    simp only at h
    cases hl : batch_loop st predict now reqs with
    | error e => rw [hl] at h; simp at h
    | ok results =>
    rw [hl] at h
    simp only at h
    have hrec := Except.ok.inj h
    subst hrec
    obtain ⟨hlen, hidx⟩ := batch_loop_ok_spec st predict now reqs results hl
    refine ⟨?_, hlen⟩
    intro req hmem
    obtain ⟨i, hi⟩ := List.mem_iff_getElem?.mp hmem
    obtain ⟨item, -, hbsi⟩ := hidx i req hi
    exact ⟨item, hbsi⟩

/-- Witness for C8: a loaded server whose model raises on every call,
given a one-request batch. -/
theorem batch_all_or_nothing_witness :
    ((∃ req ∈ [sampleRequest], ∃ e,
        batch_score_item failState failPredict "t" req = .error e) →
      ∃ e', batch_score_return_requests failState "t" [sampleRequest] =
        .error e') ∧
    (∀ r, batch_score_return_requests failState "t" [sampleRequest] = .ok r →
      (∀ req ∈ [sampleRequest], ∃ item,
        batch_score_item failState failPredict "t" req = .ok item) ∧
      r.results.length = [sampleRequest].length) :=
  batch_all_or_nothing failState "t" failPredict [sampleRequest] rfl

/-! ### Explainer helpers -/

/-- The risk factor built from one selected `(name, value, importance)`
triple whose value is numeric. -/
def rf_of (fi : List ℚ) (t : String × FieldValue × ℚ) : RiskFactor :=
  { feature := t.1,
    value := match t.2.1 with | .num q => q | .str _ => 0,
    importance := t.2.2,
    risk_level := if np_percentile_75 fi < t.2.2 then "high" else "medium" }

/-- On triples with numeric values the risk-factor loop never fails and
acts as a map. -/
theorem risk_factor_loop_eq_map (fi : List ℚ) :
    ∀ l : List (String × FieldValue × ℚ),
      (∀ t ∈ l, ∃ q, t.2.1 = FieldValue.num q) →
      risk_factor_loop fi l = .ok (l.map (rf_of fi)) := by
  intro l
  induction l with
  | nil => intro _; rfl
  | cons t ts ih =>
    intro h
    obtain ⟨q, hq⟩ := h t (by simp)
    have hrest := ih fun x hx => h x (by simp [hx])
    simp [risk_factor_loop, pyFloat, hq, hrest, rf_of]

/-- Every triple zipped from a numeric feature vector has a numeric
value component. -/
theorem feature_data_num (vs : List ℚ) (ns : List String) (imps : List ℚ) :
    ∀ t ∈ feature_data (vs.map FieldValue.num) ns imps,
      ∃ q, t.2.1 = FieldValue.num q := by
  intro t ht
  unfold feature_data at ht
  obtain ⟨-, h2⟩ := List.of_mem_zip ht
  obtain ⟨h3, -⟩ := List.of_mem_zip h2
  obtain ⟨q, -, hq⟩ := List.mem_map.mp h3
  exact ⟨q, hq.symm⟩

/-- The `i`-th zipped triple is made of the `i`-th name, value and
importance. -/
theorem feature_data_getElem? (features : List FieldValue) (ns : List String)
    (imps : List ℚ) (i : ℕ) (t : String × FieldValue × ℚ)
    (h : (feature_data features ns imps)[i]? = some t) :
    ns[i]? = some t.1 ∧ features[i]? = some t.2.1 ∧ imps[i]? = some t.2.2 := by
  unfold feature_data at h
  obtain ⟨ha, hb⟩ := List.getElem?_zip_eq_some.mp h
  obtain ⟨hc, hd⟩ := List.getElem?_zip_eq_some.mp hb
  exact ⟨ha, hc, hd⟩

/-- `zip` truncates to the shortest of the three sequences. -/
theorem feature_data_length (features : List FieldValue) (ns : List String)
    (imps : List ℚ) :
    (feature_data features ns imps).length =
      min ns.length (min features.length imps.length) := by
  simp [feature_data]

/-- **C10** (safety, implicit).  The explainer never fails on a length
mismatch between `feature_names`, the feature vector and
`feature_importance`: for any three sequences (numeric vector) it
succeeds, silently truncating to the shortest via `zip` and returning
`min top_n shortest` entries, rather than raising a per-request or
startup error. -/
theorem explainer_truncates_on_mismatch (ns : List String) (vs imps : List ℚ)
    (top_n : ℕ) :
    ∃ l, get_top_risk_factors (vs.map FieldValue.num) (some ns) (some imps)
      top_n = .ok l ∧
      l.length = min top_n (min ns.length (min vs.length imps.length)) := by
  have hnum : ∀ t ∈ (sort_feature_data
      (feature_data (vs.map FieldValue.num) ns imps)).take top_n,
      ∃ q, t.2.1 = FieldValue.num q := by
    intro t ht
    exact feature_data_num vs ns imps t
      ((List.mem_insertionSort impDesc).mp (List.mem_of_mem_take ht))
  have hloop := risk_factor_loop_eq_map imps _ hnum
  refine ⟨((sort_feature_data (feature_data (vs.map FieldValue.num) ns
    imps)).take top_n).map (rf_of imps), ?_, ?_⟩
  · simp only [get_top_risk_factors]
    exact hloop
  · rw [List.length_map, List.length_take, sort_feature_data,
      List.length_insertionSort, feature_data_length, List.length_map]

/-- **C4** (functional_correctness).  With `feature_names`, a numeric
feature vector and `feature_importance` all of equal length, the
explainer succeeds and: `top_risk_factors` has length
`min 5 len(feature_names)`; it is sorted descending by importance, with
ties kept in original feature order (stability of the sort); each entry
carries the vector's value at that feature's position; and each entry is
`"high"` exactly when its importance exceeds the 75th percentile of the
entire importance distribution, else `"medium"`. -/
theorem top_risk_factors_spec (ns : List String) (vs imps : List ℚ)
    (h1 : vs.length = ns.length) (h2 : imps.length = ns.length) :
    ∃ l, get_top_risk_factors (vs.map FieldValue.num) (some ns) (some imps) 5
      = .ok l ∧
      l.length = min 5 ns.length ∧
      l.Pairwise (fun a b => b.importance ≤ a.importance) ∧
      (∀ rf ∈ l, ∃ i : ℕ, ns[i]? = some rf.feature ∧ vs[i]? = some rf.value ∧
        imps[i]? = some rf.importance) ∧
      (∀ rf ∈ l, rf.risk_level =
        if np_percentile_75 imps < rf.importance then "high" else "medium") ∧
      (∀ a b, [a, b].Sublist (feature_data (vs.map FieldValue.num) ns imps) →
        impDesc a b →
        [a, b].Sublist (sort_feature_data
          (feature_data (vs.map FieldValue.num) ns imps))) := by
  have hnum : ∀ t ∈ (sort_feature_data
      (feature_data (vs.map FieldValue.num) ns imps)).take 5,
      ∃ q, t.2.1 = FieldValue.num q := by
    intro t ht
    exact feature_data_num vs ns imps t
      ((List.mem_insertionSort impDesc).mp (List.mem_of_mem_take ht))
  have hloop := risk_factor_loop_eq_map imps _ hnum
  refine ⟨((sort_feature_data (feature_data (vs.map FieldValue.num) ns
      imps)).take 5).map (rf_of imps),
    by simp only [get_top_risk_factors]; exact hloop, ?_, ?_, ?_, ?_, ?_⟩
  · rw [List.length_map, List.length_take, sort_feature_data,
      List.length_insertionSort, feature_data_length, List.length_map, h1, h2]
    omega
  · refine List.pairwise_map.mpr ?_
    have hsorted : (sort_feature_data
        (feature_data (vs.map FieldValue.num) ns imps)).Pairwise impDesc :=
      List.sorted_insertionSort impDesc _
    exact (hsorted.sublist (List.take_sublist 5 _)).imp fun h => h
  · intro rf hrf
    obtain ⟨t, ht, rfl⟩ := List.mem_map.mp hrf
    obtain ⟨q, hq⟩ := hnum t ht
    obtain ⟨i, hfd⟩ := List.mem_iff_getElem?.mp
      ((List.mem_insertionSort impDesc).mp (List.mem_of_mem_take ht))
    obtain ⟨hns, hfeat, himp⟩ := feature_data_getElem? _ ns imps i t hfd
    have hv' : (vs.map FieldValue.num)[i]? = some (FieldValue.num q) := by
      rw [← hq]; exact hfeat
    rw [List.getElem?_map] at hv'
    cases hvs : vs[i]? with
    | none => rw [hvs] at hv'; cases hv'
    | some x =>
      rw [hvs] at hv'
      have hx : FieldValue.num x = FieldValue.num q := Option.some.inj hv'
      have hval : (rf_of imps t).value = q := by simp [rf_of, hq]
      refine ⟨i, hns, ?_, himp⟩
      rw [hvs, hval, FieldValue.num.inj hx]
  · intro rf hrf
    obtain ⟨t, -, rfl⟩ := List.mem_map.mp hrf
    simp [rf_of]
  · intro a b hab hle
    exact List.pair_sublist_insertionSort hle hab

/-- Witness for C4 at the sample metadata (equal-length names, vector
and importances). -/
theorem top_risk_factors_spec_witness :
    ∃ l, get_top_risk_factors ([365, 50, 1/10].map FieldValue.num)
      (some ["user_age_days", "order_value", "return_rate"])
      (some [3/10, 1/2, 1/5]) 5 = .ok l ∧
      l.length = min 5 ["user_age_days", "order_value", "return_rate"].length ∧
      l.Pairwise (fun a b => b.importance ≤ a.importance) ∧
      (∀ rf ∈ l, ∃ i : ℕ,
        ["user_age_days", "order_value", "return_rate"][i]? = some rf.feature ∧
        [365, 50, 1/10][i]? = some rf.value ∧
        [3/10, 1/2, 1/5][i]? = some rf.importance) ∧
      (∀ rf ∈ l, rf.risk_level =
        if np_percentile_75 [3/10, 1/2, 1/5] < rf.importance
        then "high" else "medium") ∧
      (∀ a b, [a, b].Sublist (feature_data ([365, 50, 1/10].map FieldValue.num)
          ["user_age_days", "order_value", "return_rate"] [3/10, 1/2, 1/5]) →
        impDesc a b →
        [a, b].Sublist (sort_feature_data
          (feature_data ([365, 50, 1/10].map FieldValue.num)
            ["user_age_days", "order_value", "return_rate"]
            [3/10, 1/2, 1/5]))) :=
  top_risk_factors_spec ["user_age_days", "order_value", "return_rate"]
    [365, 50, 1/10] [3/10, 1/2, 1/5] rfl rfl

end ReturnFraud
